import Mathlib

/-!
Shallow embedding of the `unique-type` crate (`src/lib.rs`).

The crate mints nominally distinct marker types at compile time: the macro
`new!` expands, at each occurrence, to
`Template<{ unsafe { Set::unique(&(||{})) } }>`.
Its soundness rests on a host-language guarantee quoted in the source from
the Rust Reference: each textual occurrence of a closure expression produces
a closure value with a unique, anonymous type.  We embed that guarantee by
indexing closure types with a natural number `site`: two distinct macro
expansions correspond to two distinct site indices, and the `TypeId`
assignment of the compiler is embedded as an injective encoding of types.

Everything in the crate resolves during type checking, so the embedding is a
model of the compile-time artifacts: the universe of Rust types involved,
`TypeId::of`, the `Set` token struct and its `unique` constructor, the
`Template` specializer, the two traits (`pvt::Unique` and `Unique`) together
with the crate's impl blocks, and the visibility of the crate's items (which
decides what external code can name, implement or construct).
-/

namespace UniqueType

/-- The compiler's type-identity values (`core::any::TypeId`), embedded as a
natural-number code.  `TypeId::of` is embedded below as an injective
assignment of codes to types. -/
structure TypeId where
  code : Nat
deriving DecidableEq

/-- `pub struct Set(TypeId)` (src/lib.rs line 83): the identity token, a
tuple struct wrapping the `TypeId` of its witness type.  The single field is
private (no `pub` on the field). -/
structure Set where
  typeId : TypeId
deriving DecidableEq

/-- The universe of Rust types the crate's mechanism touches:
* `closure site` — the anonymous zero-capture closure type produced by the
  textual occurrence of `||{}` in the expansion of `new!` at expansion
  site `site`; distinct expansions are distinct occurrences, hence
  distinct sites (Rust Reference guarantee quoted in the source);
* `usize` — the example of a nameable, reusable witness type from the
  safety documentation of `Set::unique`;
* `unit` — `()`, the payload type of `Template`;
* `setTy` — the crate's `Set` type itself, as a Rust type (it is the return
  type of `Set::unique`);
* `template t` — the instantiation `Template<t>` of the specializer at the
  const-generic token value `t` (src/lib.rs line 123); const generics
  compare by the structural equality of the token, which the embedding
  realizes as equality of the `template` argument;
* `other n` — any other nameable type of the program. -/
inductive RustTy where
  | closure (site : Nat)
  | usize
  | unit
  | setTy
  | template (t : Set)
  | other (n : Nat)
deriving DecidableEq

/-- `TypeId::of::<T>()`: the compiler's assignment of identity codes to
types.  The host guarantee is that distinct types receive distinct
`TypeId`s; the encoding below realizes it injectively. -/
def TypeId.of : RustTy → TypeId
  | .closure site => ⟨6 * site⟩
  | .usize => ⟨1⟩
  | .unit => ⟨2⟩
  | .setTy => ⟨3⟩
  | .template t => ⟨6 * t.typeId.code + 4⟩
  | .other n => ⟨6 * n + 5⟩

/-- `pub const unsafe fn unique<T>(_: &'static T) -> Self { Self(TypeId::of::<T>()) }`
(src/lib.rs lines 112-114).  The reference argument is ignored; only the
type parameter `T` matters.  The reference's pointee value is embedded as a
bare `Nat`. -/
def Set.unique (T : RustTy) (_ref : Nat) : Set :=
  ⟨TypeId.of T⟩

/-- The expansion of the macro `new!` (src/lib.rs lines 151-158) at
expansion site `site`:
`$crate::Template<{ unsafe { $crate::Set::unique(&(||{})) } }>`.
It is a pure type expression: an instantiation of `Template` at the token
derived from the closure occurrence belonging to this expansion site. -/
def new (site : Nat) : RustTy :=
  .template (Set.unique (.closure site) 0)

/-- `impl<const T: Set> pvt::Unique for Template<T>` (src/lib.rs line 125)
is the only impl of the seal in the crate: a type implements `pvt::Unique`
exactly when it is an instantiation of `Template`. -/
def implsPvtUnique : RustTy → Bool
  | .template _ => true
  | _ => false

/-- `impl<T: pvt::Unique> Unique for T {}` (src/lib.rs line 77): the single
blanket impl makes the public `Unique` trait hold of exactly the
implementors of the seal. -/
def implsUnique (ty : RustTy) : Bool :=
  implsPvtUnique ty

/-- Rust's nominal typing: a value of type `v` is accepted where type `e` is
expected iff the two types are equal; there is no coercion between distinct
nominal types. -/
def assignCompiles (v e : RustTy) : Bool :=
  decide (v = e)

/-- The call `foo(a, b)` against `fn foo<Tag: Unique>(a: S<Tag>, b: S<Tag>)`
type-checks iff the two tag types unify (are equal) and satisfy the
`Unique` bound.  This is a type-checking judgment: it is decided entirely
at compile time, so a mismatch is a compilation error, never a runtime
one. -/
def sameTagCallCompiles (t1 t2 : RustTy) : Bool :=
  decide (t1 = t2) && implsUnique t1

/-- The two modules of the crate: the root and `mod pvt` (src/lib.rs
line 65), the latter declared without `pub`. -/
inductive CrateModule where
  | root
  | pvt
deriving DecidableEq

/-- Whether a module is visible from outside the crate: the crate root is,
`mod pvt` is not (it has no `pub`). -/
def CrateModule.isPublic : CrateModule → Bool
  | .root => true
  | .pvt => false

/-- An item of the crate: the module it lives in, its `pub`-ness, whether it
is `unsafe`, whether it is `const`, and whether it is `#[doc(hidden)]`. -/
structure CrateItem where
  module : CrateModule
  isPub : Bool
  isUnsafe : Bool
  isConst : Bool
  docHidden : Bool
deriving DecidableEq

/-- Rust's path visibility rule: an item can be named from outside the crate
iff it is `pub` and its enclosing module is visible from outside. -/
def CrateItem.externallyReachable (i : CrateItem) : Bool :=
  i.module.isPublic && i.isPub

/-- `pub trait Unique {}` inside `mod pvt` (src/lib.rs line 69): `pub`, but
in the non-`pub` module. -/
def sealTraitItem : CrateItem :=
  ⟨.pvt, true, false, false, false⟩

/-- `pub trait Unique: pvt::Unique {}` at the crate root (src/lib.rs
line 75). -/
def uniqueTraitItem : CrateItem :=
  ⟨.root, true, false, false, false⟩

/-- `#[doc(hidden)] pub struct Set(TypeId)` at the crate root (src/lib.rs
lines 81-83). -/
def setStructItem : CrateItem :=
  ⟨.root, true, false, false, true⟩

/-- `pub const unsafe fn unique<T>(_: &'static T) -> Self` (src/lib.rs
line 112): a public associated function on the public `Set` struct, at the
crate root, marked both `const` and `unsafe`. -/
def setUniqueItem : CrateItem :=
  ⟨.root, true, true, true, false⟩

/-- `#[doc(hidden)] pub struct Template<const T: Set>(())` at the crate root
(src/lib.rs lines 122-123). -/
def templateItem : CrateItem :=
  ⟨.root, true, false, false, true⟩

/-- An external crate can write `impl Tr for X` only if it can name the
trait `Tr`; for the seal this reduces to the external reachability of
`pvt::Unique`. -/
def sealImplementableExternally : Bool :=
  sealTraitItem.externallyReachable

/-- Whether an external crate can get `impl Unique for ty` accepted:
it must name the public trait, the impl must not overlap the crate's
blanket impl (coherence), and the supertrait obligation `ty: pvt::Unique`
must be dischargeable — either `ty` already implements the seal, or the
external crate itself implements the seal for `ty`. -/
def uniqueImplementableExternally (ty : RustTy) : Bool :=
  uniqueTraitItem.externallyReachable
    && !(implsUnique ty)
    && (implsPvtUnique ty || sealImplementableExternally)

/-- A field of a struct declaration: its visibility and its type. -/
structure FieldDecl where
  isPub : Bool
  ty : RustTy
deriving DecidableEq

/-- A struct declaration, reduced to its field list. -/
structure StructDecl where
  fields : List FieldDecl
deriving DecidableEq

/-- A struct-literal expression for `d` is legal outside the crate iff every
field of `d` is visible there, i.e. `pub`. -/
def StructDecl.externallyConstructible (d : StructDecl) : Bool :=
  d.fields.all (·.isPub)

/-- `pub struct Template<const T: Set>(())` (src/lib.rs line 123): a tuple
struct with one field, not `pub`, of type `()`. -/
def templateDecl : StructDecl :=
  ⟨[⟨false, .unit⟩]⟩

/-- Byte sizes of the types of the model, where the source determines them:
`()` and a zero-capture closure are zero-sized, `usize` is 8 bytes on the
reference 64-bit target, `Set` wraps a `TypeId` (a `u128`, 16 bytes), and
`Template<t>` holds a single `()` field, hence is zero-sized.  Sizes of
arbitrary other types are not determined by the source. -/
def byteSize : RustTy → Option Nat
  | .unit => some 0
  | .closure _ => some 0
  | .usize => some 8
  | .setTy => some 16
  | .template _ => some 0
  | .other _ => none

/-- A function declaration of the crate: its item data and return type. -/
structure FnDecl where
  item : CrateItem
  ret : RustTy
deriving DecidableEq

/-- `Set::unique` as a function declaration: its return type is `Set`. -/
def setUniqueFn : FnDecl :=
  ⟨setUniqueItem, .setTy⟩

/-- The crate's public functions: `Set::unique` is the only `fn` the crate
exports (in particular, none returns a `Template` instantiation). -/
def cratePubFns : List FnDecl :=
  [setUniqueFn]

/-- The traits the crate derives or could derive on `Set`:
`peq` is `PartialEq`, `eqt` is `Eq`, `hash` is `Hash`, `ord` is `Ord`. -/
inductive DerivedTrait where
  | peq
  | eqt
  | hash
  | ord
deriving DecidableEq

/-- The API surface of a type: derived traits, methods taking `self`,
associated functions, and the per-field `pub` flags. -/
structure ApiSurface where
  derives : List DerivedTrait
  selfMethods : List String
  assocFns : List String
  fieldsPub : List Bool
deriving DecidableEq

/-- The API surface of `Set` (src/lib.rs lines 81-115):
`#[derive(PartialEq, Eq)]`, no method taking `self`, the single associated
function `unique`, and one non-`pub` field. -/
def setApi : ApiSurface :=
  ⟨[.peq, .eqt], [], ["unique"], [false]⟩

/-! Helper lemmas shared between the claim theorems. -/

/-- The compiler's `TypeId` assignment is injective: two types have the same
`TypeId` iff they are the same type. -/
theorem typeId_of_inj (T1 T2 : RustTy) : TypeId.of T1 = TypeId.of T2 ↔ T1 = T2 := by
  constructor
  · intro h
    cases T1 <;> cases T2 <;>
      simp only [TypeId.of, TypeId.mk.injEq] at h <;>
      first
        | rfl
        | exact absurd h (by omega)
        | (congr 1; omega)
        | (rename_i t1 t2
           obtain ⟨⟨c1⟩⟩ := t1
           obtain ⟨⟨c2⟩⟩ := t2
           have h2 : 6 * c1 + 4 = 6 * c2 + 4 := h
           have hc : c1 = c2 := by omega
           subst hc
           rfl)
  · intro h
    rw [h]

/-- Two tokens built by `Set::unique` are equal iff their witness types are
the same type; the value behind the reference plays no role. -/
theorem set_unique_eq_iff (T U : RustTy) (a b : Nat) :
    Set.unique T a = Set.unique U b ↔ T = U := by
  simp only [Set.unique, Set.mk.injEq]
  exact typeId_of_inj T U

/-- Two `new!` expansions produce the same type iff they are the same
expansion site. -/
theorem new_eq_iff (s1 s2 : Nat) : new s1 = new s2 ↔ s1 = s2 := by
  simp only [new, RustTy.template.injEq]
  rw [set_unique_eq_iff]
  simp only [RustTy.closure.injEq]

/-! The claim theorems. -/

/-- C1: for every pair of distinct expansions of the `new!` macro — embedded
as two distinct expansion sites, each deriving its token from its own
zero-capture closure occurrence — the two resulting types are unequal, their
`TypeId`s differ, and a value of one type is rejected by the type checker
where the other is expected. -/
theorem c1_distinct_expansions_distinct_types (s1 s2 : Nat) (h : s1 ≠ s2) :
    new s1 ≠ new s2 ∧
    TypeId.of (new s1) ≠ TypeId.of (new s2) ∧
    assignCompiles (new s1) (new s2) = false := by
  have hne : new s1 ≠ new s2 := fun he => h ((new_eq_iff s1 s2).mp he)
  refine ⟨hne, fun he => hne ((typeId_of_inj _ _).mp he), ?_⟩
  simpa only [assignCompiles, decide_eq_false_iff_not] using hne

/-- C1 witness: the theorem at the concrete expansion sites 0 and 1. -/
theorem c1_witness :
    new 0 ≠ new 1 ∧
    TypeId.of (new 0) ≠ TypeId.of (new 1) ∧
    assignCompiles (new 0) (new 1) = false :=
  c1_distinct_expansions_distinct_types 0 1 (by decide)

/-- C2: no code outside the crate can add an implementor of the public
`Unique` trait: the seal `pvt::Unique` is not externally reachable, an
external impl of `Unique` for any type is rejected (coherence with the
blanket impl, or an undischargeable supertrait obligation), and `Unique`
holds of exactly the seal's implementors. -/
theorem c2_unique_trait_sealed :
    sealImplementableExternally = false ∧
    (∀ ty : RustTy, uniqueImplementableExternally ty = false) ∧
    (∀ ty : RustTy, implsUnique ty = implsPvtUnique ty) := by
  refine ⟨rfl, ?_, fun ty => rfl⟩
  intro ty
  cases hty : implsPvtUnique ty <;>
    simp [uniqueImplementableExternally, implsUnique, sealImplementableExternally,
      uniqueTraitItem, sealTraitItem, CrateItem.externallyReachable,
      CrateModule.isPublic, hty]

/-- C2 witness: the theorem applied at the concrete type `usize`. -/
theorem c2_witness : uniqueImplementableExternally .usize = false :=
  c2_unique_trait_sealed.2.1 .usize

/-- C3: the implementors of the seal `pvt::Unique` are exactly the
instantiations of `Template`, and every `Template<t>` also satisfies the
public `Unique` trait through the blanket impl. -/
theorem c3_seal_implementors_exactly_templates :
    (∀ ty : RustTy, implsPvtUnique ty = true ↔ ∃ t : Set, ty = .template t) ∧
    (∀ t : Set, implsUnique (.template t) = true) := by
  constructor
  · intro ty
    constructor
    · intro h
      cases ty <;>
        first
          | (rename_i t; exact ⟨t, rfl⟩)
          | simp [implsPvtUnique] at h
    · rintro ⟨t, rfl⟩
      rfl
  · intro t
    rfl

/-- C3 witness: the theorem applied at a concrete token value. -/
theorem c3_witness : implsPvtUnique (RustTy.template ⟨⟨0⟩⟩) = true :=
  (c3_seal_implementors_exactly_templates.1 (RustTy.template ⟨⟨0⟩⟩)).mpr ⟨⟨⟨0⟩⟩, rfl⟩

/-- C4: `Template<t1>` and `Template<t2>` are the same type iff `t1 = t2`
(structural equality on the token, i.e. equality of the wrapped `TypeId`s),
and a value of one instantiation is accepted where the other is expected iff
the tokens are equal — there is no coercion between distinct
instantiations. -/
theorem c4_template_eq_iff_token_eq (t1 t2 : Set) :
    (RustTy.template t1 = RustTy.template t2 ↔ t1 = t2) ∧
    (assignCompiles (.template t1) (.template t2) = true ↔ t1 = t2) ∧
    (t1 = t2 ↔ t1.typeId = t2.typeId) := by
  refine ⟨?_, ?_, ?_⟩
  · simp only [RustTy.template.injEq]
  · simp only [assignCompiles, decide_eq_true_eq, RustTy.template.injEq]
  · constructor
    · intro h
      rw [h]
    · intro h
      cases t1
      cases t2
      simpa using h

/-- C4 witness: the theorem applied at a concrete pair of equal tokens. -/
theorem c4_witness : RustTy.template (⟨⟨0⟩⟩ : Set) = RustTy.template ⟨⟨0⟩⟩ :=
  (c4_template_eq_iff_token_eq ⟨⟨0⟩⟩ ⟨⟨0⟩⟩).1.mpr rfl

/-- C5 counterexample: the claim says `Set::unique` is module-private and
unreachable from outside the macro expansion; in the source it is a `pub`
associated function on the `pub` (merely `#[doc(hidden)]`) struct `Set` at
the crate root, hence externally reachable — the crate's own doc examples
call it directly. -/
theorem c5_counterexample :
    setUniqueItem.externallyReachable = true ∧
    setStructItem.externallyReachable = true :=
  ⟨rfl, rfl⟩

/-- C5 amended: `Set::unique` is publicly reachable (it must be, because the
macro's expansion in client crates calls `$crate::Set::unique`), and its
freshness precondition is instead guarded by the `unsafe` marker (with
`Set` hidden from the docs); the macro's expansion is the sanctioned caller
that discharges the obligation. -/
theorem c5_unique_constructor_guarded_by_unsafe :
    setUniqueItem.externallyReachable = true ∧
    setUniqueItem.isUnsafe = true ∧
    setStructItem.docHidden = true ∧
    (∀ site : Nat, new site = .template (Set.unique (.closure site) 0)) :=
  ⟨rfl, rfl, rfl, fun _ => rfl⟩

/-- C5 witness: the amended theorem's expansion equation at site 7. -/
theorem c5_witness : new 7 = .template (Set.unique (.closure 7) 0) :=
  c5_unique_constructor_guarded_by_unsafe.2.2.2 7

/-- C6: equality on `Set` is structural (equality of the wrapped `TypeId`),
two `Set::unique` tokens are equal iff their witness types are the same
type, and `Set` supports nothing else: only `PartialEq`/`Eq` are derived
(no `Hash`, no `Ord`), it has no method taking `self`, and its field is
private, so there is no accessor. -/
theorem c6_set_equality_structural :
    (∀ s1 s2 : Set, s1 = s2 ↔ s1.typeId = s2.typeId) ∧
    (∀ (T U : RustTy) (a b : Nat), Set.unique T a = Set.unique U b ↔ T = U) ∧
    setApi.derives = [.peq, .eqt] ∧
    DerivedTrait.hash ∉ setApi.derives ∧
    DerivedTrait.ord ∉ setApi.derives ∧
    setApi.selfMethods = [] ∧
    setApi.fieldsPub = [false] := by
  refine ⟨?_, set_unique_eq_iff, rfl, by decide, by decide, rfl, rfl⟩
  intro s1 s2
  constructor
  · intro h
    rw [h]
  · intro h
    cases s1
    cases s2
    simpa using h

/-- C6 witness: the theorem's witness-type equivalence at a concrete pair of
calls with equal types and different values. -/
theorem c6_witness :
    Set.unique RustTy.usize 0 = Set.unique RustTy.usize 1 ↔
      RustTy.usize = RustTy.usize :=
  c6_set_equality_structural.2.1 .usize .usize 0 1

/-- C7: the call of a function with two parameters bounded by one `Unique`
tag generic type-checks when both arguments carry the same `new!`-derived
type, and is rejected by the type checker (a compile-time judgment, never a
runtime check) when the two arguments come from two distinct expansions. -/
theorem c7_same_tag_bound (s s1 s2 : Nat) (h : s1 ≠ s2) :
    sameTagCallCompiles (new s) (new s) = true ∧
    sameTagCallCompiles (new s1) (new s2) = false := by
  constructor
  · simp [sameTagCallCompiles, implsUnique, implsPvtUnique, new]
  · have hne : new s1 ≠ new s2 := fun he => h ((new_eq_iff s1 s2).mp he)
    simp [sameTagCallCompiles, hne]

/-- C7 witness: the theorem at the concrete expansion sites 0, 0 and 1. -/
theorem c7_witness :
    sameTagCallCompiles (new 0) (new 0) = true ∧
    sameTagCallCompiles (new 0) (new 1) = false :=
  c7_same_tag_bound 0 0 1 (by decide)

/-- C8: `new!` takes no runtime arguments and expands purely to a type
expression — `Template` instantiated at a token built by the `const fn`
`Set::unique` — and the resulting type holds only a unit payload and is
zero-sized, so no runtime code executes. -/
theorem c8_new_is_pure_type_expression :
    (∀ site : Nat, new site = .template (Set.unique (.closure site) 0)) ∧
    (∀ site : Nat, ∃ t : Set, new site = .template t) ∧
    setUniqueItem.isConst = true ∧
    templateDecl.fields = [⟨false, .unit⟩] ∧
    (∀ site : Nat, byteSize (new site) = some 0) :=
  ⟨fun _ => rfl, fun _ => ⟨_, rfl⟩, rfl, rfl, fun _ => rfl⟩

/-- C8 witness: the theorem's conjuncts at the concrete site 0. -/
theorem c8_witness : new 0 = .template (Set.unique (.closure 0) 0) :=
  c8_new_is_pure_type_expression.1 0

/-- C9: `Set::unique` ignores the value behind its reference argument — its
result depends only on the type parameter — so two calls with witnesses of
the same nameable type (the `usize` example from the source's safety
documentation) produce colliding tokens and hence one shared `Template`
type. -/
theorem c9_set_unique_ignores_value :
    (∀ (T : RustTy) (a b : Nat), Set.unique T a = Set.unique T b) ∧
    Set.unique .usize 0 = Set.unique .usize 1 ∧
    RustTy.template (Set.unique .usize 0) =
      RustTy.template (Set.unique .usize 1) :=
  ⟨fun _ _ _ => rfl, rfl, rfl⟩

/-- C9 witness: the theorem at the concrete type `()` and two values. -/
theorem c9_witness : Set.unique RustTy.unit 0 = Set.unique RustTy.unit 5 :=
  c9_set_unique_ignores_value.1 .unit 0 5

/-- C10: no value of `Template<t>` can be built outside the crate: its one
field is private and of type `()` (so a struct literal is illegal there and
the type is zero-sized), and no public function of the crate returns a
`Template` instantiation. -/
theorem c10_template_not_constructible_externally :
    templateDecl.fields = [⟨false, .unit⟩] ∧
    templateDecl.externallyConstructible = false ∧
    cratePubFns = [setUniqueFn] ∧
    (∀ t : Set, setUniqueFn.ret ≠ .template t) ∧
    (∀ t : Set, byteSize (.template t) = some 0) :=
  ⟨rfl, rfl, rfl, fun _ h => RustTy.noConfusion h, fun _ => rfl⟩

/-- C10 witness: the theorem's return-type conjunct at a concrete token. -/
theorem c10_witness : setUniqueFn.ret ≠ RustTy.template ⟨⟨0⟩⟩ :=
  c10_template_not_constructible_externally.2.2.2.1 ⟨⟨0⟩⟩

end UniqueType
